import Mathlib

/-!
Shallow embedding of the Social Echo Chamber real-time layer
(`src/websocket_server/app.py`, plus the `SoundWave` TTL rule of
`src/backend/rooms/models.py`).

The websocket server keeps two module-level dicts,
`connected_users : sid -> user dict` and `room_data : room_id -> room dict`,
and relies on Flask-SocketIO room membership (`join_room`/`leave_room`/
implicit removal on disconnect) for broadcast fan-out.  We embed:

* Python dicts as insertion-ordered association lists (`aset` updates an
  existing key in place and appends a fresh key, exactly like a CPython
  dict; `aerase` is `dict.pop`);
* each `@socketio.on(...)` handler as a pure function
  `ServerState -> ServerState x List Emit`, where an `Emit` records the
  event name, the payload dict, and the recipient connection ids resolved
  at emission time (`emit(ev, p)` targets the caller; `emit(ev, p, room=r)`
  targets every socket currently in room `r`, including the caller when it
  is in `r`; `include_self=False` removes the caller);
* `datetime.now()` as an explicit `now : Nat` argument to the step;
* JSON values appearing in payloads as the `JValue` type, with timestamps
  distinguished as `JValue.jtime`.

In CPython, `connected_users[sid]` and `room_data[r]['users'][sid]` alias
the same dict for the connection's current room; every handler either
reassigns both together (join, line 77/95), writes both explicitly
(update_position, lines 156/159), or pops the room entry before mutating
the registry entry (leave, lines 131/141), so explicit value-passing below
is extensionally faithful.
-/

namespace EchoChamber

abbrev Sid := String
abbrev RoomId := String

/-- A JSON position object such as `{'x': 0, 'y': 0, 'z': 0}` (any keys are
accepted by the code; `update_position` stores whatever dict arrives). -/
abbrev PosObj := List (String × Rat)

/-- One entry of `connected_users` (app.py lines 77-83): the per-connection
registry record.  `room_id` is set to `None` by `handle_leave_room`. -/
structure UserData where
  room_id : Option RoomId
  user_id : String
  username : String
  avatar_color : String
  position : PosObj
deriving DecidableEq

/-- One entry of `room_data` (app.py lines 87-91). `current_song` holds the
opaque `song_data` payload (or `None`); `playback_position` is a number. -/
structure RoomState where
  users : List (Sid × UserData)
  current_song : Option String
  playback_position : Rat
deriving DecidableEq

/-- The server's mutable state: the two module-level dicts of app.py plus
the Socket.IO room-membership table maintained by `join_room`/`leave_room`
and by automatic removal on disconnect. -/
structure ServerState where
  connected_users : List (Sid × UserData)
  room_data : List (RoomId × RoomState)
  sio : List (RoomId × List Sid)
deriving DecidableEq

/-- Dict lookup: `m.get(k)` / `k in m`. -/
def alookup {α β : Type} [DecidableEq α] : List (α × β) → α → Option β
  | [], _ => none
  | (k, v) :: rest, key => if k = key then some v else alookup rest key

/-- Dict assignment `m[k] = v`: update in place if present, append if new
(CPython insertion-order semantics). -/
def aset {α β : Type} [DecidableEq α] : List (α × β) → α → β → List (α × β)
  | [], key, val => [(key, val)]
  | (k, v) :: rest, key, val =>
    if k = key then (k, val) :: rest else (k, v) :: aset rest key val

/-- Dict removal `m.pop(k, None)` / `del m[k]`. -/
def aerase {α β : Type} [DecidableEq α] : List (α × β) → α → List (α × β)
  | [], _ => []
  | (k, v) :: rest, key => if k = key then rest else (k, v) :: aerase rest key

/-- Socket.IO connections currently in room `r` (the fan-out set of
`emit(..., room=r)`). -/
def sioMembersOf (sio : List (RoomId × List Sid)) (r : RoomId) : List Sid :=
  (alookup sio r).getD []

def sioMembers (s : ServerState) (r : RoomId) : List Sid :=
  sioMembersOf s.sio r

/-- `flask_socketio.join_room(r)`: add the caller to room `r`. -/
def sioJoin (sio : List (RoomId × List Sid)) (r : RoomId) (sid : Sid) :
    List (RoomId × List Sid) :=
  let ms := sioMembersOf sio r
  aset sio r (if sid ∈ ms then ms else ms ++ [sid])

/-- `flask_socketio.leave_room(r)`: remove the caller from room `r`
(no-op if absent). -/
def sioLeave (sio : List (RoomId × List Sid)) (r : RoomId) (sid : Sid) :
    List (RoomId × List Sid) :=
  match alookup sio r with
  | none => sio
  | some ms => aset sio r (ms.filter (· ≠ sid))

/-- On transport disconnect Socket.IO removes the client from every room. -/
def sioLeaveAll (sio : List (RoomId × List Sid)) (sid : Sid) :
    List (RoomId × List Sid) :=
  sio.map (fun p => (p.1, p.2.filter (· ≠ sid)))

/-- JSON values occurring in outbound payloads.  `jtime` is a timestamp
(the embedding of `datetime.now().isoformat()`); `jusers` is the list of
user dicts in a `room_joined` snapshot; `jsongval` is the opaque
`song_data`/`current_song` value. -/
inductive JValue where
  | jnull : JValue
  | jstr : String → JValue
  | jnum : Rat → JValue
  | jtime : Nat → JValue
  | jpos : PosObj → JValue
  | jusers : List UserData → JValue
  | jsongval : Option String → JValue
deriving DecidableEq

def jOfOpt : Option String → JValue
  | none => JValue.jnull
  | some s => JValue.jstr s

/-- One `emit(...)` call: event name, payload dict, and the connection ids
it is delivered to, resolved at emission time. -/
structure Emit where
  event : String
  payload : List (String × JValue)
  recipients : List Sid
deriving DecidableEq

/-- Python truthiness of an optional string (`None` and `''` are falsy). -/
def truthyS : Option String → Bool
  | none => false
  | some s => !s.isEmpty

/-- Inbound `join_room` payload fields read by the handler
(`data.get(...)`; `none` = key absent). -/
structure JoinData where
  room_id : Option String
  user_id : Option String
  username : Option String
  avatar_color : Option String
  position : Option PosObj
deriving DecidableEq

structure UpdatePositionData where
  position : Option PosObj
deriving DecidableEq

structure WaveData where
  to_user_id : Option String
  color : Option String
  intensity : Option Rat
deriving DecidableEq

structure MusicData where
  action : Option String
  song_data : Option String
deriving DecidableEq

structure SyncData where
  position : Option Rat
deriving DecidableEq

/-- app.py lines 33-37, `handle_connect`. -/
def handle_connect (sid : Sid) (s : ServerState) : ServerState × List Emit :=
  (s, [⟨"connected", [("message", JValue.jstr "Connected to Echo Chamber server")], [sid]⟩])

/-- app.py lines 39-61, `handle_disconnect`: if registered, pop the user
from its current room (when that room exists in `room_data`), notify the
room, and delete the registry entry.  The departing transport is closed,
so the `user_left` broadcast reaches every other socket of the room;
Socket.IO then drops the client from all of its rooms. -/
def handle_disconnect (sid : Sid) (s : ServerState) : ServerState × List Emit :=
  match alookup s.connected_users sid with
  | none => ({ s with sio := sioLeaveAll s.sio sid }, [])
  | some ud =>
    let roomPart :=
      match ud.room_id with
      | some r =>
        if r.isEmpty then (s.room_data, ([] : List Emit))
        else
          match alookup s.room_data r with
          | some rs =>
            (aset s.room_data r { rs with users := aerase rs.users sid },
             [⟨"user_left",
               [("user_id", JValue.jstr ud.user_id), ("username", JValue.jstr ud.username)],
               (sioMembers s r).filter (· ≠ sid)⟩])
          | none => (s.room_data, [])
      | none => (s.room_data, [])
    ({ connected_users := aerase s.connected_users sid,
       room_data := roomPart.1,
       sio := sioLeaveAll s.sio sid }, roomPart.2)

/-- app.py lines 63-117, `handle_join_room`.  Validates field presence
(Python truthiness: absent or empty string fails `all([...])`), overwrites
the registry entry, lazily initializes the room, joins the Socket.IO room,
adds the user to the room's member dict, replies `room_joined` to the
joiner and broadcasts `user_joined` to the rest of the room.  There is no
check that the connection is currently unbound. -/
def handle_join_room (sid : Sid) (d : JoinData) (s : ServerState) :
    ServerState × List Emit :=
  match d.room_id, d.user_id, d.username with
  | some room_id, some user_id, some username =>
    if room_id.isEmpty || user_id.isEmpty || username.isEmpty then
      (s, [⟨"error", [("message", JValue.jstr "Missing required fields")], [sid]⟩])
    else
      let avatar_color := d.avatar_color.getD "#3b82f6"
      let position := d.position.getD [("x", 0), ("y", 0), ("z", 0)]
      let ud : UserData :=
        { room_id := some room_id, user_id := user_id, username := username,
          avatar_color := avatar_color, position := position }
      let cu' := aset s.connected_users sid ud
      let rd₀ :=
        match alookup s.room_data room_id with
        | some _ => s.room_data
        | none => aset s.room_data room_id { users := [], current_song := none, playback_position := 0 }
      let sio' := sioJoin s.sio room_id sid
      let rs := (alookup rd₀ room_id).getD { users := [], current_song := none, playback_position := 0 }
      let rs' := { rs with users := aset rs.users sid ud }
      let rd' := aset rd₀ room_id rs'
      (⟨cu', rd', sio'⟩,
       [⟨"room_joined",
         [("room_id", JValue.jstr room_id),
          ("users", JValue.jusers (rs'.users.map Prod.snd)),
          ("current_song", JValue.jsongval rs.current_song),
          ("playback_position", JValue.jnum rs.playback_position)],
         [sid]⟩,
        ⟨"user_joined",
         [("user_id", JValue.jstr user_id),
          ("username", JValue.jstr username),
          ("avatar_color", JValue.jstr avatar_color),
          ("position", JValue.jpos position)],
         (sioMembersOf sio' room_id).filter (· ≠ sid)⟩])
  | _, _, _ =>
    (s, [⟨"error", [("message", JValue.jstr "Missing required fields")], [sid]⟩])

/-- app.py lines 119-144, `handle_leave_room`.  If the connection is
registered and bound: leave the Socket.IO room, pop the member entry
(when the room exists), broadcast `user_left` to the room (the caller has
already left it), and null out the registry binding.  Unregistered or
unbound callers fall through silently. -/
def handle_leave_room (sid : Sid) (s : ServerState) : ServerState × List Emit :=
  match alookup s.connected_users sid with
  | none => (s, [])
  | some ud =>
    match ud.room_id with
    | some r =>
      if r.isEmpty then
        ({ s with connected_users := aset s.connected_users sid { ud with room_id := none } }, [])
      else
        let sio' := sioLeave s.sio r sid
        let rd' :=
          match alookup s.room_data r with
          | some rs => aset s.room_data r { rs with users := aerase rs.users sid }
          | none => s.room_data
        ({ connected_users := aset s.connected_users sid { ud with room_id := none },
           room_data := rd', sio := sio' },
         [⟨"user_left",
           [("user_id", JValue.jstr ud.user_id), ("username", JValue.jstr ud.username)],
           sioMembersOf sio' r⟩])
    | none =>
      ({ s with connected_users := aset s.connected_users sid { ud with room_id := none } }, [])

/-- app.py lines 146-168, `handle_update_position`.  Unregistered callers
are ignored silently.  A registered caller's registry position is always
overwritten (line 156); when it is bound to an existing room its member
entry is overwritten too and `position_updated` goes to the rest of the
room (`include_self=False`).  If the member entry is missing, line 159
raises `KeyError`, which the handler's `except` swallows after the
registry write. -/
def handle_update_position (sid : Sid) (d : UpdatePositionData) (s : ServerState) :
    ServerState × List Emit :=
  match alookup s.connected_users sid with
  | none => (s, [])
  | some ud =>
    let new_position := d.position.getD []
    let cu' := aset s.connected_users sid { ud with position := new_position }
    match ud.room_id with
    | some r =>
      if r.isEmpty then ({ s with connected_users := cu' }, [])
      else
        match alookup s.room_data r with
        | none => ({ s with connected_users := cu' }, [])
        | some rs =>
          match alookup rs.users sid with
          | none => ({ s with connected_users := cu' }, [])
          | some mu =>
            let rs' := { rs with users := aset rs.users sid { mu with position := new_position } }
            ({ s with connected_users := cu', room_data := aset s.room_data r rs' },
             [⟨"position_updated",
               [("user_id", JValue.jstr ud.user_id), ("position", JValue.jpos new_position)],
               (sioMembers s r).filter (· ≠ sid)⟩])
    | none => ({ s with connected_users := cu' }, [])

/-- app.py lines 170-191, `handle_send_sound_wave`.  A registered, bound
caller's wave is broadcast to the whole Socket.IO room (no
`include_self=False`, so the sender receives it too).  The payload carries
the sender id, the unvalidated target id, color, intensity, and a single
`timestamp` field; no state is mutated. -/
def handle_send_sound_wave (now : Nat) (sid : Sid) (d : WaveData) (s : ServerState) :
    ServerState × List Emit :=
  match alookup s.connected_users sid with
  | none => (s, [])
  | some ud =>
    match ud.room_id with
    | some r =>
      if r.isEmpty then (s, [])
      else
        let wave_data : List (String × JValue) :=
          [("from_user_id", JValue.jstr ud.user_id),
           ("to_user_id", jOfOpt d.to_user_id),
           ("color", JValue.jstr (d.color.getD "#3b82f6")),
           ("intensity", JValue.jnum (d.intensity.getD 1)),
           ("timestamp", JValue.jtime now)]
        (s, [⟨"sound_wave_received", wave_data, sioMembers s r⟩])
    | none => (s, [])

/-- app.py lines 193-228, `handle_music_control`.  Dispatches on
`data.get('action')`; `play_pause` and `skip` are pure broadcasts,
`update_song` (with truthy `song_data`) stores the song and resets the
playback position before broadcasting.  Any other action value falls
through every branch: nothing is emitted and nothing changes. -/
def handle_music_control (sid : Sid) (d : MusicData) (s : ServerState) :
    ServerState × List Emit :=
  match alookup s.connected_users sid with
  | none => (s, [])
  | some ud =>
    match ud.room_id with
    | some r =>
      if r.isEmpty then (s, [])
      else
        match alookup s.room_data r with
        | none => (s, [])
        | some rs =>
          if d.action = some "play_pause" then
            (s, [⟨"music_play_pause", [("user_id", JValue.jstr ud.user_id)], sioMembers s r⟩])
          else if d.action = some "skip" then
            (s, [⟨"music_skip", [("user_id", JValue.jstr ud.user_id)], sioMembers s r⟩])
          else if d.action = some "update_song" then
            match d.song_data with
            | some song =>
              if song.isEmpty then (s, [])
              else
                let rs' := { rs with current_song := some song, playback_position := (0 : Rat) }
                ({ s with room_data := aset s.room_data r rs' },
                 [⟨"song_updated",
                   [("song_data", JValue.jstr song), ("user_id", JValue.jstr ud.user_id)],
                   sioMembers s r⟩])
            | none => (s, [])
          else (s, [])
    | none => (s, [])

/-- app.py lines 230-248, `handle_sync_playback`: overwrite the room's
playback position and notify the rest of the room. -/
def handle_sync_playback (now : Nat) (sid : Sid) (d : SyncData) (s : ServerState) :
    ServerState × List Emit :=
  match alookup s.connected_users sid with
  | none => (s, [])
  | some ud =>
    match ud.room_id with
    | some r =>
      if r.isEmpty then (s, [])
      else
        match alookup s.room_data r with
        | none => (s, [])
        | some rs =>
          let position := d.position.getD 0
          let rs' := { rs with playback_position := position }
          ({ s with room_data := aset s.room_data r rs' },
           [⟨"playback_synced",
             [("position", JValue.jnum position), ("timestamp", JValue.jtime now)],
             (sioMembers s r).filter (· ≠ sid)⟩])
    | none => (s, [])

/-- Inbound events.  `unknown` stands for any message whose event name has
no `@socketio.on` handler registered: the Socket.IO dispatcher discards
such messages without invoking any application code. -/
inductive Event where
  | connect : Event
  | disconnect : Event
  | join_room : JoinData → Event
  | leave_room : Event
  | update_position : UpdatePositionData → Event
  | send_sound_wave : WaveData → Event
  | music_control : MusicData → Event
  | sync_playback : SyncData → Event
  | unknown : String → Event
deriving DecidableEq

/-- One server step: dispatch an inbound event from connection `sid` at
wall-clock time `now`. -/
def step (now : Nat) (sid : Sid) (e : Event) (s : ServerState) :
    ServerState × List Emit :=
  match e with
  | Event.connect => handle_connect sid s
  | Event.disconnect => handle_disconnect sid s
  | Event.join_room d => handle_join_room sid d s
  | Event.leave_room => handle_leave_room sid s
  | Event.update_position d => handle_update_position sid d s
  | Event.send_sound_wave d => handle_send_sound_wave now sid d s
  | Event.music_control d => handle_music_control sid d s
  | Event.sync_playback d => handle_sync_playback now sid d s
  | Event.unknown _ => (s, [])

/-- models.py lines 251-255, `SoundWave.save`: when `expires_at` is unset
it defaults to three seconds after the save time. -/
def soundWaveSaveExpiry (now : Nat) (expires_at : Option Nat) : Nat :=
  match expires_at with
  | some e => e
  | none => now + 3

/-- The timestamp values carried by a payload dict. -/
def timeFields (p : List (String × JValue)) : List Nat :=
  p.filterMap (fun kv => match kv.2 with | JValue.jtime t => some t | _ => none)

/-! ### Sample states used by witnesses and counterexamples -/

/-- Member record of connection `c1` (user `u1`, name `alice`) in `roomA`. -/
def udAlice : UserData :=
  { room_id := some "roomA", user_id := "u1", username := "alice",
    avatar_color := "#3b82f6", position := [("x", 0), ("y", 0), ("z", 0)] }

/-- Member record of connection `c2` (user `u2`, name `bob`) in `roomA`. -/
def udBob : UserData :=
  { room_id := some "roomA", user_id := "u2", username := "bob",
    avatar_color := "#f59e0b", position := [("x", 1), ("y", 0), ("z", 0)] }

/-- A state with the two connections `c1`, `c2` both members of `roomA`. -/
def sTwo : ServerState :=
  { connected_users := [("c1", udAlice), ("c2", udBob)],
    room_data := [("roomA", { users := [("c1", udAlice), ("c2", udBob)],
                              current_song := none, playback_position := 0 })],
    sio := [("roomA", ["c1", "c2"])] }

/-- A state with `c1` alone in `roomA`. -/
def sOne : ServerState :=
  { connected_users := [("c1", udAlice)],
    room_data := [("roomA", { users := [("c1", udAlice)],
                              current_song := none, playback_position := 0 })],
    sio := [("roomA", ["c1"])] }

/-- A join payload naming `roomB`, sent while the connection is bound to
`roomA`. -/
def joinToB : JoinData :=
  { room_id := some "roomB", user_id := some "u1", username := some "alice",
    avatar_color := none, position := none }

/-- A state whose `roomA` has no members left but retains playback data. -/
def sEmptyRoom : ServerState :=
  { connected_users := [],
    room_data := [("roomA", { users := [], current_song := some "songX",
                              playback_position := 42 })],
    sio := [("roomA", [])] }

/-! ### Association-list lemmas -/

theorem alookup_aset_self {α β : Type} [DecidableEq α] (m : List (α × β)) (k : α) (v : β) :
    alookup (aset m k v) k = some v := by
  induction m with
  | nil => simp [aset, alookup]
  | cons p rest ih =>
    obtain ⟨a, b⟩ := p
    by_cases h : a = k <;> simp [aset, alookup, h, ih]

theorem alookup_aset_ne {α β : Type} [DecidableEq α] (m : List (α × β)) (k k' : α) (v : β)
    (h : k' ≠ k) : alookup (aset m k v) k' = alookup m k' := by
  have hk : ¬ k = k' := fun hh => h hh.symm
  induction m with
  | nil => simp [aset, alookup, hk]
  | cons p rest ih =>
    obtain ⟨a, b⟩ := p
    by_cases ha : a = k
    · subst ha
      simp [aset, alookup, hk]
    · simp [aset, alookup, ha, ih]

theorem isSome_alookup_aset {α β : Type} [DecidableEq α] (m : List (α × β)) (k k' : α) (v : β)
    (h : (alookup m k').isSome) : (alookup (aset m k v) k').isSome := by
  by_cases hk : k' = k
  · subst hk; simp [alookup_aset_self]
  · rw [alookup_aset_ne m k k' v hk]; exact h

theorem aset_self_of_alookup {α β : Type} [DecidableEq α] (m : List (α × β)) (k : α) (v : β)
    (h : alookup m k = some v) : aset m k v = m := by
  induction m with
  | nil => simp [alookup] at h
  | cons p rest ih =>
    obtain ⟨a, b⟩ := p
    by_cases ha : a = k
    · subst ha
      simp [alookup] at h
      simp [aset, h]
    · simp [alookup, ha] at h
      simp [aset, ha, ih h]

theorem userdata_clear_room (ud : UserData) (h : ud.room_id = none) :
    { ud with room_id := none } = ud := by
  obtain ⟨rid, a, b, c, p⟩ := ud
  cases h
  rfl

/-! ### Claim theorems -/

/-- Claim C7: explicit leave is idempotent — whatever the starting state,
running `leave_room` a second time right after a first one emits nothing
(in particular no second `user_left` and no `error`) and leaves the state
exactly as the first leave left it. -/
theorem C7_leave_room_idempotent (n₁ n₂ : Nat) (sid : Sid) (s : ServerState) :
    step n₂ sid Event.leave_room (step n₁ sid Event.leave_room s).1 =
      ((step n₁ sid Event.leave_room s).1, []) := by
  simp only [step]
  rcases h : alookup s.connected_users sid with _ | ud
  · simp [handle_leave_room, h]
  · rcases hr : ud.room_id with _ | r
    · simp [handle_leave_room, h, hr, userdata_clear_room ud hr,
        aset_self_of_alookup s.connected_users sid ud h]
    · by_cases he : r.isEmpty <;>
        simp [handle_leave_room, h, hr, he, alookup_aset_self,
          aset_self_of_alookup _ sid _ (alookup_aset_self s.connected_users sid _)]

/-- Claim C8: a join event with a missing (absent or empty) required field
— room id, user id or username — produces exactly one `error` reply,
addressed to the originating connection only, and leaves the whole server
state (connection registry, room store, socket rooms) unchanged. -/
theorem C8_join_missing_field_atomic (n : Nat) (sid : Sid) (d : JoinData) (s : ServerState)
    (h : (truthyS d.room_id && truthyS d.user_id && truthyS d.username) = false) :
    step n sid (Event.join_room d) s =
      (s, [⟨"error", [("message", JValue.jstr "Missing required fields")], [sid]⟩]) := by
  simp only [step, handle_join_room]
  rcases d with ⟨rid, uid, un, ac, pos⟩
  rcases rid with _ | r <;> rcases uid with _ | u <;> rcases un with _ | n <;>
    simp_all [truthyS]

/-- Witness for C8 at a concrete input: a join with no `user_id`. -/
theorem C8_join_missing_field_atomic_witness :
    (truthyS (some "roomA") && truthyS (none : Option String) && truthyS (some "alice")) = false ∧
    step 0 "c9" (Event.join_room
        { room_id := some "roomA", user_id := none, username := some "alice",
          avatar_color := none, position := none }) sOne =
      (sOne, [⟨"error", [("message", JValue.jstr "Missing required fields")], ["c9"]⟩]) :=
  ⟨by decide,
   C8_join_missing_field_atomic 0 "c9"
     { room_id := some "roomA", user_id := none, username := some "alice",
       avatar_color := none, position := none } sOne (by decide)⟩

/-- Claim C5: a sendWave from a bound connection mutates nothing and is
fanned out as exactly one `sound_wave_received` event whose recipient set
is the entire Socket.IO membership of the sender's room — so it reaches
every member of the room's member dict (each of which is in the socket
room) and the sender itself, not only the named target. -/
theorem C5_wave_broadcast_to_whole_room (now : Nat) (sid : Sid) (d : WaveData)
    (s : ServerState) (ud : UserData) (r : RoomId) (rs : RoomState)
    (hcu : alookup s.connected_users sid = some ud)
    (hrid : ud.room_id = some r)
    (hr : r.isEmpty = false)
    (hroom : alookup s.room_data r = some rs)
    (hself : sid ∈ sioMembers s r)
    (hcover : ∀ m ∈ rs.users.map Prod.fst, m ∈ sioMembers s r) :
    (step now sid (Event.send_sound_wave d) s).1 = s ∧
    ((step now sid (Event.send_sound_wave d) s).2).map Emit.event = ["sound_wave_received"] ∧
    ∀ e ∈ (step now sid (Event.send_sound_wave d) s).2,
      e.recipients = sioMembers s r ∧ sid ∈ e.recipients ∧
      ∀ m ∈ rs.users.map Prod.fst, m ∈ e.recipients := by
  have hstep : step now sid (Event.send_sound_wave d) s =
      (s, [⟨"sound_wave_received",
        [("from_user_id", JValue.jstr ud.user_id),
         ("to_user_id", jOfOpt d.to_user_id),
         ("color", JValue.jstr (d.color.getD "#3b82f6")),
         ("intensity", JValue.jnum (d.intensity.getD 1)),
         ("timestamp", JValue.jtime now)],
        sioMembers s r⟩]) := by
    simp only [step, handle_send_sound_wave, hcu, hrid, hr, Bool.false_eq_true, reduceIte]
  rw [hstep]
  refine ⟨rfl, rfl, ?_⟩
  intro e he
  rw [List.mem_singleton] at he
  subst he
  exact ⟨rfl, hself, hcover⟩

/-- Witness for C5: in the two-member room state, a wave from `c1` reaches
both `c1` and `c2`. -/
theorem C5_wave_broadcast_to_whole_room_witness :
    alookup sTwo.connected_users "c1" = some udAlice ∧
    udAlice.room_id = some "roomA" ∧
    "c1" ∈ sioMembers sTwo "roomA" ∧
    ((step 5 "c1" (Event.send_sound_wave
        { to_user_id := some "u2", color := none, intensity := none }) sTwo).1 = sTwo ∧
     ((step 5 "c1" (Event.send_sound_wave
        { to_user_id := some "u2", color := none, intensity := none }) sTwo).2).map Emit.event =
        ["sound_wave_received"] ∧
     ∀ e ∈ (step 5 "c1" (Event.send_sound_wave
        { to_user_id := some "u2", color := none, intensity := none }) sTwo).2,
       e.recipients = sioMembers sTwo "roomA" ∧ "c1" ∈ e.recipients ∧
       ∀ m ∈ (({ users := [("c1", udAlice), ("c2", udBob)], current_song := none,
                 playback_position := 0 } : RoomState)).users.map Prod.fst, m ∈ e.recipients) :=
  ⟨by decide, by decide, by decide,
   C5_wave_broadcast_to_whole_room 5 "c1"
     { to_user_id := some "u2", color := none, intensity := none } sTwo udAlice "roomA"
     { users := [("c1", udAlice), ("c2", udBob)], current_song := none, playback_position := 0 }
     (by decide) (by decide) (by decide) (by decide) (by decide) (by decide)⟩

/-- Claim C6: a position update from a bound member `sid` is emitted as
exactly one `position_updated` event that is never delivered back to `sid`
(`include_self=False`) and is delivered to every other connection of the
room — both every other socket in the room and, in particular, every other
entry of the room's member dict. -/
theorem C6_position_update_excludes_sender (now : Nat) (sid : Sid) (d : UpdatePositionData)
    (s : ServerState) (ud : UserData) (r : RoomId) (rs : RoomState) (mu : UserData)
    (hcu : alookup s.connected_users sid = some ud)
    (hrid : ud.room_id = some r)
    (hr : r.isEmpty = false)
    (hroom : alookup s.room_data r = some rs)
    (hmem : alookup rs.users sid = some mu)
    (hcover : ∀ m ∈ rs.users.map Prod.fst, m ∈ sioMembers s r) :
    ((step now sid (Event.update_position d) s).2).map Emit.event = ["position_updated"] ∧
    ∀ e ∈ (step now sid (Event.update_position d) s).2,
      sid ∉ e.recipients ∧
      (∀ m ∈ sioMembers s r, m ≠ sid → m ∈ e.recipients) ∧
      (∀ m ∈ rs.users.map Prod.fst, m ≠ sid → m ∈ e.recipients) := by
  have hstep : (step now sid (Event.update_position d) s).2 =
      [⟨"position_updated",
        [("user_id", JValue.jstr ud.user_id), ("position", JValue.jpos (d.position.getD []))],
        (sioMembers s r).filter (· ≠ sid)⟩] := by
    simp only [step, handle_update_position, hcu, hrid, hr, hroom, hmem, Bool.false_eq_true,
      reduceIte]
  rw [hstep]
  refine ⟨rfl, ?_⟩
  intro e he
  rw [List.mem_singleton] at he
  subst he
  refine ⟨?_, ?_, ?_⟩
  · simp [List.mem_filter]
  · intro m hm hne
    simp [List.mem_filter, hm, hne]
  · intro m hm hne
    simp [List.mem_filter, hcover m hm, hne]

/-- Witness for C6: in the two-member room, `c1`'s update reaches `c2`
and not `c1`. -/
theorem C6_position_update_excludes_sender_witness :
    alookup sTwo.connected_users "c1" = some udAlice ∧
    alookup sTwo.room_data "roomA" =
      some { users := [("c1", udAlice), ("c2", udBob)], current_song := none,
             playback_position := 0 } ∧
    (((step 3 "c1" (Event.update_position { position := some [("x", 2)] }) sTwo).2).map
        Emit.event = ["position_updated"] ∧
     ∀ e ∈ (step 3 "c1" (Event.update_position { position := some [("x", 2)] }) sTwo).2,
       "c1" ∉ e.recipients ∧
       (∀ m ∈ sioMembers sTwo "roomA", m ≠ "c1" → m ∈ e.recipients) ∧
       (∀ m ∈ (({ users := [("c1", udAlice), ("c2", udBob)], current_song := none,
                  playback_position := 0 } : RoomState)).users.map Prod.fst,
          m ≠ "c1" → m ∈ e.recipients)) :=
  ⟨by decide, by decide,
   C6_position_update_excludes_sender 3 "c1" { position := some [("x", 2)] } sTwo udAlice
     "roomA"
     { users := [("c1", udAlice), ("c2", udBob)], current_song := none, playback_position := 0 }
     udAlice (by decide) (by decide) (by decide) (by decide) (by decide) (by decide)⟩

/-- Counterexample to C9 as stated: `c1` is alone in `roomA` (no member has
user id `ghost`), yet its wave naming target `ghost` is broadcast as
`sound_wave_received` (here to `c1` itself) — no `TargetNotFound` or other
error reply is produced. -/
theorem C9_counterexample :
    sOne.room_data.all
        (fun rp => rp.2.users.all (fun up => up.2.user_id != "ghost")) = true ∧
    ((step 7 "c1" (Event.send_sound_wave
        { to_user_id := some "ghost", color := none, intensity := none }) sOne).2).map
      (fun e => (e.event, e.recipients)) = [("sound_wave_received", ["c1"])] := by
  decide

/-- Claim C9 (amended): the wave target is never validated — whatever
`to_user_id` holds (present in the room or not), a bound sender's wave is
broadcast unchanged to the socket room as `sound_wave_received`, carrying
the target id verbatim, and no error reply of any kind is produced. -/
theorem C9_wave_target_not_validated (now : Nat) (sid : Sid) (d : WaveData)
    (s : ServerState) (ud : UserData) (r : RoomId)
    (hcu : alookup s.connected_users sid = some ud)
    (hrid : ud.room_id = some r)
    (hr : r.isEmpty = false) :
    step now sid (Event.send_sound_wave d) s =
      (s, [⟨"sound_wave_received",
        [("from_user_id", JValue.jstr ud.user_id),
         ("to_user_id", jOfOpt d.to_user_id),
         ("color", JValue.jstr (d.color.getD "#3b82f6")),
         ("intensity", JValue.jnum (d.intensity.getD 1)),
         ("timestamp", JValue.jtime now)],
        sioMembers s r⟩]) := by
  simp only [step, handle_send_sound_wave, hcu, hrid, hr, Bool.false_eq_true, reduceIte]

/-- Witness for C9 (amended) at a target id matching no member. -/
theorem C9_wave_target_not_validated_witness :
    alookup sOne.connected_users "c1" = some udAlice ∧
    udAlice.room_id = some "roomA" ∧
    "roomA".isEmpty = false ∧
    step 7 "c1" (Event.send_sound_wave
        { to_user_id := some "ghost", color := none, intensity := none }) sOne =
      (sOne, [⟨"sound_wave_received",
        [("from_user_id", JValue.jstr udAlice.user_id),
         ("to_user_id", jOfOpt (some "ghost")),
         ("color", JValue.jstr ((none : Option String).getD "#3b82f6")),
         ("intensity", JValue.jnum ((none : Option Rat).getD 1)),
         ("timestamp", JValue.jtime 7)],
        sioMembers sOne "roomA"⟩]) :=
  ⟨by decide, by decide, by decide,
   C9_wave_target_not_validated 7 "c1"
     { to_user_id := some "ghost", color := none, intensity := none } sOne udAlice "roomA"
     (by decide) (by decide) (by decide)⟩

/-- Counterexample to C2 as stated: the one `sound_wave_received` event a
wave produces carries exactly one timestamp value (its creation time 100),
so it carries no creation/expiry pair at distance 3 seconds. -/
theorem C2_counterexample :
    ((step 100 "c1" (Event.send_sound_wave
        { to_user_id := some "u2", color := none, intensity := none }) sTwo).2).map
      (fun e => (e.event, timeFields e.payload)) = [("sound_wave_received", [100])] := by
  decide

/-- Claim C2 (amended): every `sound_wave_received` payload carries exactly
one timestamp — the creation time of the wave — and no expiry timestamp;
the 3-second TTL exists only in the backend `SoundWave` model, whose save
defaults `expires_at` to creation time + 3 seconds. -/
theorem C2_wave_single_creation_timestamp (now : Nat) (sid : Sid) (d : WaveData)
    (s : ServerState) :
    (∀ e ∈ (step now sid (Event.send_sound_wave d) s).2, timeFields e.payload = [now]) ∧
    soundWaveSaveExpiry now none = now + 3 := by
  refine ⟨?_, rfl⟩
  intro e
  rcases hcu : alookup s.connected_users sid with _ | ud
  · simp [step, handle_send_sound_wave, hcu]
  · rcases hrid : ud.room_id with _ | r
    · simp [step, handle_send_sound_wave, hcu, hrid]
    · cases hre : r.isEmpty
      · simp only [step, handle_send_sound_wave, hcu, hrid, hre, Bool.false_eq_true,
          reduceIte]
        intro he
        rw [List.mem_singleton] at he
        subst he
        rcases hto : d.to_user_id with _ | t <;> simp [timeFields, jOfOpt, hto]
      · simp [step, handle_send_sound_wave, hcu, hrid, hre]
/-- Witness for C2 (amended) at the concrete wave of the two-member room. -/
theorem C2_wave_single_creation_timestamp_witness :
    (⟨"sound_wave_received",
      [("from_user_id", JValue.jstr "u1"), ("to_user_id", JValue.jstr "u2"),
       ("color", JValue.jstr "#3b82f6"), ("intensity", JValue.jnum 1),
       ("timestamp", JValue.jtime 100)], ["c1", "c2"]⟩ : Emit) ∈
      (step 100 "c1" (Event.send_sound_wave
        { to_user_id := some "u2", color := none, intensity := none }) sTwo).2 ∧
    timeFields [("from_user_id", JValue.jstr "u1"), ("to_user_id", JValue.jstr "u2"),
       ("color", JValue.jstr "#3b82f6"), ("intensity", JValue.jnum 1),
       ("timestamp", JValue.jtime 100)] = [100] ∧
    soundWaveSaveExpiry 100 none = 100 + 3 :=
  ⟨by decide,
   (C2_wave_single_creation_timestamp 100 "c1"
     { to_user_id := some "u2", color := none, intensity := none } sTwo).1
     ⟨"sound_wave_received",
      [("from_user_id", JValue.jstr "u1"), ("to_user_id", JValue.jstr "u2"),
       ("color", JValue.jstr "#3b82f6"), ("intensity", JValue.jnum 1),
       ("timestamp", JValue.jtime 100)], ["c1", "c2"]⟩ (by decide),
   (C2_wave_single_creation_timestamp 100 "c1"
     { to_user_id := some "u2", color := none, intensity := none } sTwo).2⟩

/-- Counterexample to C3 as stated: connection `c9` has no presence entry
anywhere, yet its `update_position` is answered with no reply at all — in
particular no `NotAMember` error — and nothing changes. -/
theorem C3_counterexample :
    step 0 "c9" (Event.update_position { position := some [("x", 1)] }) sOne = (sOne, []) := by
  decide

/-- Claim C3 (amended): an `update_position` from a connection with no
registry entry is silently ignored (no error reply, no state change); from
a bound member it overwrites that member's stored position both in the
registry and in its room's member dict. -/
theorem C3_update_position_silent_or_overwrite :
    (∀ (n : Nat) (sid : Sid) (d : UpdatePositionData) (s : ServerState),
        alookup s.connected_users sid = none →
        step n sid (Event.update_position d) s = (s, [])) ∧
    (∀ (n : Nat) (sid : Sid) (d : UpdatePositionData) (s : ServerState)
        (ud : UserData) (r : RoomId) (rs : RoomState) (mu : UserData),
        alookup s.connected_users sid = some ud →
        ud.room_id = some r → r.isEmpty = false →
        alookup s.room_data r = some rs →
        alookup rs.users sid = some mu →
        alookup (step n sid (Event.update_position d) s).1.connected_users sid =
          some { ud with position := d.position.getD [] } ∧
        (alookup (step n sid (Event.update_position d) s).1.room_data r).map
            (fun rs' => alookup rs'.users sid) =
          some (some { mu with position := d.position.getD [] })) := by
  constructor
  · intro n sid d s hcu
    simp [step, handle_update_position, hcu]
  · intro n sid d s ud r rs mu hcu hrid hre hrd hmem
    simp only [step, handle_update_position, hcu, hrid, hre, hrd, hmem, Bool.false_eq_true,
      reduceIte]
    exact ⟨alookup_aset_self _ _ _, by simp [alookup_aset_self]⟩

/-- Witness for C3 (amended): the silent branch at `c9`, the overwrite
branch at `c1` of the two-member room. -/
theorem C3_update_position_silent_or_overwrite_witness :
    (alookup sOne.connected_users "c9" = none ∧
     step 4 "c9" (Event.update_position { position := some [("y", 2)] }) sOne = (sOne, [])) ∧
    (alookup sTwo.connected_users "c1" = some udAlice ∧
     alookup (step 4 "c1" (Event.update_position { position := some [("y", 2)] })
         sTwo).1.connected_users "c1" =
       some { udAlice with position := [("y", 2)] } ∧
     (alookup (step 4 "c1" (Event.update_position { position := some [("y", 2)] })
         sTwo).1.room_data "roomA").map (fun rs' => alookup rs'.users "c1") =
       some (some { udAlice with position := [("y", 2)] })) :=
  ⟨⟨by decide,
    C3_update_position_silent_or_overwrite.1 4 "c9" { position := some [("y", 2)] } sOne
      (by decide)⟩,
   ⟨by decide,
    (C3_update_position_silent_or_overwrite.2 4 "c1" { position := some [("y", 2)] } sTwo
      udAlice "roomA"
      { users := [("c1", udAlice), ("c2", udBob)], current_song := none,
        playback_position := 0 }
      udAlice (by decide) (by decide) (by decide) (by decide) (by decide)).1,
    (C3_update_position_silent_or_overwrite.2 4 "c1" { position := some [("y", 2)] } sTwo
      udAlice "roomA"
      { users := [("c1", udAlice), ("c2", udBob)], current_song := none,
        playback_position := 0 }
      udAlice (by decide) (by decide) (by decide) (by decide) (by decide)).2⟩⟩

/-- Counterexample to C4 as stated: a bound connection's `music_control`
with the unrecognized action `rewind`, and an inbound event of the
unregistered kind `teleport`, are both dropped with no reply at all — no
`UnknownAction` error is sent. -/
theorem C4_counterexample :
    step 0 "c1" (Event.music_control { action := some "rewind", song_data := none }) sOne =
      (sOne, []) ∧
    step 0 "c1" (Event.unknown "teleport") sOne = (sOne, []) := by
  decide

/-- Claim C4 (amended): an unrecognized `music_control` action value, and
any event kind with no registered handler, are silently dropped: the state
is unchanged and nothing — in particular no `UnknownAction` error — is
emitted to anyone. -/
theorem C4_unknown_action_silently_dropped :
    (∀ (n : Nat) (sid : Sid) (d : MusicData) (s : ServerState),
        d.action ≠ some "play_pause" → d.action ≠ some "skip" →
        d.action ≠ some "update_song" →
        step n sid (Event.music_control d) s = (s, [])) ∧
    (∀ (n : Nat) (sid : Sid) (kind : String) (s : ServerState),
        step n sid (Event.unknown kind) s = (s, [])) := by
  constructor
  · intro n sid d s h₁ h₂ h₃
    rcases hcu : alookup s.connected_users sid with _ | ud
    · simp [step, handle_music_control, hcu]
    · rcases hrid : ud.room_id with _ | r
      · simp [step, handle_music_control, hcu, hrid]
      · cases hre : r.isEmpty
        · rcases hrd : alookup s.room_data r with _ | rs
          · simp [step, handle_music_control, hcu, hrid, hre, hrd]
          · simp [step, handle_music_control, hcu, hrid, hre, hrd, h₁, h₂, h₃]
        · simp [step, handle_music_control, hcu, hrid, hre]
  · intro n sid kind s
    rfl

/-- Witness for C4 (amended) at the concrete action `rewind`. -/
theorem C4_unknown_action_silently_dropped_witness :
    ((some "rewind" : Option String) ≠ some "play_pause" ∧
     (some "rewind" : Option String) ≠ some "skip" ∧
     (some "rewind" : Option String) ≠ some "update_song") ∧
    step 2 "c1" (Event.music_control { action := some "rewind", song_data := none }) sOne =
      (sOne, []) ∧
    step 2 "c1" (Event.unknown "teleport") sOne = (sOne, []) :=
  ⟨⟨by decide, by decide, by decide⟩,
   C4_unknown_action_silently_dropped.1 2 "c1"
     { action := some "rewind", song_data := none } sOne (by decide) (by decide) (by decide),
   C4_unknown_action_silently_dropped.2 2 "c1" "teleport" sOne⟩

/-- Counterexample to C1 as stated: `c1` is bound to `roomA`, joins
`roomB`, and instead of an `AlreadyBound` error the join succeeds
(`room_joined` then `user_joined`), rebinding `c1` to `roomB` while `c1`
also remains in `roomA`'s member dict — it is now a member of two rooms. -/
theorem C1_counterexample :
    ((step 0 "c1" (Event.join_room joinToB) sOne).2).map Emit.event =
      ["room_joined", "user_joined"] ∧
    (alookup (step 0 "c1" (Event.join_room joinToB) sOne).1.connected_users "c1").map
      UserData.room_id = some (some "roomB") ∧
    ((alookup (step 0 "c1" (Event.join_room joinToB) sOne).1.room_data "roomA").map
      (fun rs => (alookup rs.users "c1").isSome)) = some true ∧
    ((alookup (step 0 "c1" (Event.join_room joinToB) sOne).1.room_data "roomB").map
      (fun rs => (alookup rs.users "c1").isSome)) = some true := by
  decide

/-- Claim C1 (amended): a join naming a different room from an
already-bound connection does not fail — no error reply is produced, the
binding is silently overwritten to the new room, the connection is added
to the new room's member dict, and the old room's entry (stale membership
included) is left exactly as it was.  In particular a connection id can
be a member of two rooms at once. -/
theorem C1_join_while_bound_rebinds (n : Nat) (sid : Sid) (d : JoinData) (s : ServerState)
    (ud : UserData) (r₁ : RoomId) (r₂ uid un : String)
    (hcu : alookup s.connected_users sid = some ud)
    (hrid : ud.room_id = some r₁)
    (hne : r₁ ≠ r₂)
    (hd : d.room_id = some r₂) (hu : d.user_id = some uid) (hn : d.username = some un)
    (he₂ : r₂.isEmpty = false) (heu : uid.isEmpty = false) (hen : un.isEmpty = false) :
    ((step n sid (Event.join_room d) s).2).map Emit.event =
      ["room_joined", "user_joined"] ∧
    (alookup (step n sid (Event.join_room d) s).1.connected_users sid).map
      UserData.room_id = some (some r₂) ∧
    ((alookup (step n sid (Event.join_room d) s).1.room_data r₂).map
      (fun rs => (alookup rs.users sid).isSome)) = some true ∧
    alookup (step n sid (Event.join_room d) s).1.room_data r₁ = alookup s.room_data r₁ := by
  have hne' : ∀ (m : List (RoomId × RoomState)) (v : RoomState),
      alookup (aset m r₂ v) r₁ = alookup m r₁ :=
    fun m v => alookup_aset_ne m r₂ r₁ v hne
  rcases hrd : alookup s.room_data r₂ with _ | rs₂ <;>
    simp [step, handle_join_room, hd, hu, hn, he₂, heu, hen, hrd, alookup_aset_self, hne']

/-- Witness for C1 (amended): `c1`, bound to `roomA`, joins `roomB`. -/
theorem C1_join_while_bound_rebinds_witness :
    alookup sOne.connected_users "c1" = some udAlice ∧
    udAlice.room_id = some "roomA" ∧
    ("roomA" : RoomId) ≠ "roomB" ∧
    (((step 0 "c1" (Event.join_room joinToB) sOne).2).map Emit.event =
       ["room_joined", "user_joined"] ∧
     (alookup (step 0 "c1" (Event.join_room joinToB) sOne).1.connected_users "c1").map
       UserData.room_id = some (some "roomB") ∧
     ((alookup (step 0 "c1" (Event.join_room joinToB) sOne).1.room_data "roomB").map
       (fun rs => (alookup rs.users "c1").isSome)) = some true ∧
     alookup (step 0 "c1" (Event.join_room joinToB) sOne).1.room_data "roomA" =
       alookup sOne.room_data "roomA") :=
  ⟨by decide, by decide, by decide,
   C1_join_while_bound_rebinds 0 "c1" joinToB sOne udAlice "roomA" "roomB" "u1" "alice"
     (by decide) (by decide) (by decide) (by decide) (by decide) (by decide)
     (by decide) (by decide) (by decide)⟩

/-- No handler ever deletes a `room_data` entry: every mutation of the
room store is a key update (`aset`), so an existing room survives every
event. -/
theorem room_persists_any (n : Nat) (sid : Sid) (e : Event) (s : ServerState) (r : RoomId)
    (h : (alookup s.room_data r).isSome = true) :
    (alookup (step n sid e s).1.room_data r).isSome = true := by
  cases e <;>
    simp only [step, handle_connect, handle_disconnect, handle_join_room, handle_leave_room,
      handle_update_position, handle_send_sound_wave, handle_music_control,
      handle_sync_playback] <;>
    (repeat' split) <;>
    simp_all [isSome_alookup_aset]

/-- Updating only the `users` field of some room keeps every room's
`current_song` and `playback_position` readable unchanged. -/
theorem alookup_aset_users_keeps_song (rd : List (RoomId × RoomState)) (r r₀ : RoomId)
    (rs rs₀ : RoomState) (u : List (Sid × UserData))
    (h : alookup rd r = some rs) (h₀ : alookup rd r₀ = some rs₀) :
    (alookup (aset rd r₀ { rs₀ with users := u }) r).map
        (fun x => (x.current_song, x.playback_position)) =
      some (rs.current_song, rs.playback_position) := by
  by_cases hrr : r = r₀
  · subst hrr
    rw [h] at h₀
    injection h₀ with h₀
    subst h₀
    simp [alookup_aset_self]
  · rw [alookup_aset_ne rd r₀ r _ hrr, h]
    rfl

/-- An explicit leave only removes the member entry: the room's
`current_song` and `playback_position` are retained. -/
theorem leave_keeps_song (n : Nat) (sid : Sid) (s : ServerState) (r : RoomId) (rs : RoomState)
    (h : alookup s.room_data r = some rs) :
    (alookup (step n sid Event.leave_room s).1.room_data r).map
        (fun x => (x.current_song, x.playback_position)) =
      some (rs.current_song, rs.playback_position) := by
  rcases hcu : alookup s.connected_users sid with _ | ud
  · simp [step, handle_leave_room, hcu, h]
  · rcases hrid : ud.room_id with _ | r₀
    · simp [step, handle_leave_room, hcu, hrid, h]
    · cases hre : r₀.isEmpty
      · rcases hrd : alookup s.room_data r₀ with _ | rs₀
        · simp [step, handle_leave_room, hcu, hrid, hre, hrd, h]
        · simp only [step, handle_leave_room, hcu, hrid, hre, hrd, Bool.false_eq_true,
            reduceIte]
          exact alookup_aset_users_keeps_song s.room_data r r₀ rs rs₀ _ h hrd
      · simp [step, handle_leave_room, hcu, hrid, hre, h]

/-- A transport disconnect only removes the member entry: the room's
`current_song` and `playback_position` are retained. -/
theorem disconnect_keeps_song (n : Nat) (sid : Sid) (s : ServerState) (r : RoomId)
    (rs : RoomState) (h : alookup s.room_data r = some rs) :
    (alookup (step n sid Event.disconnect s).1.room_data r).map
        (fun x => (x.current_song, x.playback_position)) =
      some (rs.current_song, rs.playback_position) := by
  rcases hcu : alookup s.connected_users sid with _ | ud
  · simp [step, handle_disconnect, hcu, h]
  · rcases hrid : ud.room_id with _ | r₀
    · simp [step, handle_disconnect, hcu, hrid, h]
    · cases hre : r₀.isEmpty
      · rcases hrd : alookup s.room_data r₀ with _ | rs₀
        · simp [step, handle_disconnect, hcu, hrid, hre, hrd, h]
        · simp only [step, handle_disconnect, hcu, hrid, hre, hrd, Bool.false_eq_true,
            reduceIte]
          exact alookup_aset_users_keeps_song s.room_data r r₀ rs rs₀ _ h hrd
      · simp [step, handle_disconnect, hcu, hrid, hre, h]

/-- Joining an existing room whose member dict has emptied yields a
`room_joined` snapshot to the joiner that carries the room's retained
playback data and a members list holding only the joiner. -/
theorem rejoin_snapshot (n : Nat) (sid : Sid) (d : JoinData) (s : ServerState)
    (r uid un : String) (rs : RoomState)
    (hrd : alookup s.room_data r = some rs)
    (husers : rs.users = [])
    (hd : d.room_id = some r) (hu : d.user_id = some uid) (hn : d.username = some un)
    (he : r.isEmpty = false) (heu : uid.isEmpty = false) (hen : un.isEmpty = false) :
    ((step n sid (Event.join_room d) s).2).head? = some
      ⟨"room_joined",
       [("room_id", JValue.jstr r),
        ("users", JValue.jusers [{ room_id := some r, user_id := uid, username := un,
                                   avatar_color := d.avatar_color.getD "#3b82f6",
                                   position := d.position.getD
                                     [("x", 0), ("y", 0), ("z", 0)] }]),
        ("current_song", JValue.jsongval rs.current_song),
        ("playback_position", JValue.jnum rs.playback_position)],
       [sid]⟩ := by
  simp [step, handle_join_room, hd, hu, hn, he, heu, hen, hrd, husers, aset]

/-- Claim C10: room entries, once created, are never removed from the room
store; an explicit leave or a disconnect retains the room's `current_song`
and `playback_position`; and the next join into a room whose member dict
is empty receives a `room_joined` snapshot carrying the retained playback
values together with a members list containing only the new joiner. -/
theorem C10_rooms_retained :
    (∀ (n : Nat) (sid : Sid) (e : Event) (s : ServerState) (r : RoomId),
        (alookup s.room_data r).isSome = true →
        (alookup (step n sid e s).1.room_data r).isSome = true) ∧
    (∀ (n : Nat) (sid : Sid) (s : ServerState) (r : RoomId) (rs : RoomState),
        alookup s.room_data r = some rs →
        (alookup (step n sid Event.leave_room s).1.room_data r).map
            (fun x => (x.current_song, x.playback_position)) =
          some (rs.current_song, rs.playback_position) ∧
        (alookup (step n sid Event.disconnect s).1.room_data r).map
            (fun x => (x.current_song, x.playback_position)) =
          some (rs.current_song, rs.playback_position)) ∧
    (∀ (n : Nat) (sid : Sid) (d : JoinData) (s : ServerState) (r uid un : String)
        (rs : RoomState),
        alookup s.room_data r = some rs → rs.users = [] →
        d.room_id = some r → d.user_id = some uid → d.username = some un →
        r.isEmpty = false → uid.isEmpty = false → un.isEmpty = false →
        ((step n sid (Event.join_room d) s).2).head? = some
          ⟨"room_joined",
           [("room_id", JValue.jstr r),
            ("users", JValue.jusers [{ room_id := some r, user_id := uid, username := un,
                                       avatar_color := d.avatar_color.getD "#3b82f6",
                                       position := d.position.getD
                                         [("x", 0), ("y", 0), ("z", 0)] }]),
            ("current_song", JValue.jsongval rs.current_song),
            ("playback_position", JValue.jnum rs.playback_position)],
           [sid]⟩) :=
  ⟨fun n sid e s r h => room_persists_any n sid e s r h,
   fun n sid s r rs h => ⟨leave_keeps_song n sid s r rs h, disconnect_keeps_song n sid s r rs h⟩,
   fun n sid d s r uid un rs h₁ h₂ h₃ h₄ h₅ h₆ h₇ h₈ =>
     rejoin_snapshot n sid d s r uid un rs h₁ h₂ h₃ h₄ h₅ h₆ h₇ h₈⟩

/-- Witness for C10: `roomA` survives `c1`'s leave; leave and disconnect
keep its playback fields; `c3` joining the emptied `roomA` of `sEmptyRoom`
receives the retained song `songX` at position 42 with itself as the only
member. -/
theorem C10_rooms_retained_witness :
    ((alookup sOne.room_data "roomA").isSome = true ∧
     (alookup (step 0 "c1" Event.leave_room sOne).1.room_data "roomA").isSome = true) ∧
    ((alookup (step 0 "c1" Event.leave_room sOne).1.room_data "roomA").map
        (fun x => (x.current_song, x.playback_position)) = some (none, 0) ∧
     (alookup (step 0 "c1" Event.disconnect sOne).1.room_data "roomA").map
        (fun x => (x.current_song, x.playback_position)) = some (none, 0)) ∧
    ((step 9 "c3" (Event.join_room
        { room_id := some "roomA", user_id := some "u3", username := some "carol",
          avatar_color := none, position := none }) sEmptyRoom).2).head? = some
      ⟨"room_joined",
       [("room_id", JValue.jstr "roomA"),
        ("users", JValue.jusers [{ room_id := some "roomA", user_id := "u3",
                                   username := "carol", avatar_color := "#3b82f6",
                                   position := [("x", 0), ("y", 0), ("z", 0)] }]),
        ("current_song", JValue.jsongval (some "songX")),
        ("playback_position", JValue.jnum 42)],
       ["c3"]⟩ :=
  ⟨⟨by decide, C10_rooms_retained.1 0 "c1" Event.leave_room sOne "roomA" (by decide)⟩,
   (C10_rooms_retained.2.1 0 "c1" sOne "roomA"
      { users := [("c1", udAlice)], current_song := none, playback_position := 0 }
      (by decide)),
   C10_rooms_retained.2.2 9 "c3"
     { room_id := some "roomA", user_id := some "u3", username := some "carol",
       avatar_color := none, position := none }
     sEmptyRoom "roomA" "u3" "carol"
     { users := [], current_song := some "songX", playback_position := 42 }
     (by decide) (by decide) (by decide) (by decide) (by decide) (by decide) (by decide)
     (by decide)⟩

end EchoChamber
